import Mathlib

/-!
Shallow embedding of the XP-ledger update engine of
`.github/scripts/update_xp_tracker_api.py` (rustchain-bounties).

Strings are manipulated through their underlying character lists
(`String.data`), mirroring Python's code-point indexing.  Python line
splitting is modelled for `"\n"` line breaks (the documents the script
handles use plain `\n`).  The ambient clock (`datetime.now`, `date.today`)
is passed in as explicit `stamp` / `today` arguments.
-/

/-- Character-level whitespace test mirroring Python's default `strip`
set for the characters that occur in these documents. -/
def pyIsSpace (c : Char) : Bool :=
  c = ' ' || c = '\t' || c = '\n' || c = '\r' || c = '\x0b' || c = '\x0c'

/-- Python `str.split(sep)` for a one-character separator, on char lists. -/
def splitOnCharCL (sep : Char) : List Char → List (List Char)
  | [] => [[]]
  | x :: rest =>
      let r := splitOnCharCL sep rest
      if x = sep then [] :: r
      else
        match r with
        | [] => [[x]]
        | h :: t => (x :: h) :: t

/-- Python `str.strip()` (default whitespace), on char lists. -/
def stripCL (l : List Char) : List Char :=
  ((l.dropWhile pyIsSpace).reverse.dropWhile pyIsSpace).reverse

/-- Python `str.rstrip()` (default whitespace), on char lists. -/
def rstripCL (l : List Char) : List Char :=
  (l.reverse.dropWhile pyIsSpace).reverse

/-- Leftmost occurrence index of `pat` in a char list (Python `str.find`,
with `none` standing for Python's `-1`). -/
def findSubCL (pat : List Char) : List Char → Option Nat
  | [] => if pat = [] then some 0 else none
  | c :: rest =>
      if pat.isPrefixOf (c :: rest) then some 0
      else (findSubCL pat rest).map (· + 1)

/-- Python `sub in s` substring test. -/
def containsSubCL (pat s : List Char) : Bool := (findSubCL pat s).isSome

/-- `"sep".join(parts)` on char lists. -/
def joinSepCL (sep : List Char) : List (List Char) → List Char
  | [] => []
  | [x] => x
  | x :: y :: t => x ++ sep ++ joinSepCL sep (y :: t)

/-- String wrappers over the char-list helpers. -/
def pyStrip (s : String) : String := ⟨stripCL s.data⟩

def pyRstrip (s : String) : String := ⟨rstripCL s.data⟩

def pySplit (s : String) (sep : Char) : List String :=
  (splitOnCharCL sep s.data).map (fun l => ⟨l⟩)

def pyFind (s pat : String) : Option Nat := findSubCL pat.data s.data

/-- Python `str.find(pat, start)`. -/
def pyFindFrom (s pat : String) (start : Nat) : Option Nat :=
  (findSubCL pat.data (s.data.drop start)).map (· + start)

def pyContains (s pat : String) : Bool := containsSubCL pat.data s.data

def pyJoin (sep : String) (parts : List String) : String :=
  ⟨joinSepCL sep.data (parts.map String.data)⟩

def pyLower (s : String) : String := ⟨s.data.map Char.toLower⟩

def pyStartsWith (s pre : String) : Bool := pre.data.isPrefixOf s.data

/-- Python `str.splitlines()` restricted to `"\n"` line breaks: split on
newlines, dropping the final empty piece produced by a trailing newline. -/
def splitlinesPy (s : String) : List String :=
  let parts := pySplit s '\n'
  if parts.getLast? = some "" then parts.dropLast else parts

/-- Python slice `s[:n]` by code points. -/
def pyTake (s : String) (n : Nat) : String := ⟨s.data.take n⟩

/-- Python slice `s[n:]` by code points. -/
def pyDrop (s : String) (n : Nat) : String := ⟨s.data.drop n⟩

/-- First-occurrence deduplication, modelling Python `set` construction
(a set is represented as a duplicate-free list; order is irrelevant to
the set semantics and only fixed for executability). -/
def dedupStr (l : List String) : List String :=
  l.foldl (fun acc x => if x ∈ acc then acc else acc ++ [x]) []

/-- Python `set.update`: union, represented on duplicate-free lists. -/
def sunion (a b : List String) : List String :=
  a ++ b.filter (fun x => decide (x ∉ a))

/-- `LEVEL_THRESHOLDS` from the source: ascending `(xp, level, title)` bands. -/
def LEVEL_THRESHOLDS : List (Int × Int × String) :=
  [(0, 1, "Starting Hunter"),
   (200, 2, "Basic Hunter"),
   (500, 3, "Priority Hunter"),
   (1000, 4, "Rising Hunter"),
   (2000, 5, "Multiplier Hunter"),
   (3500, 6, "Featured Hunter"),
   (5500, 7, "Veteran Hunter"),
   (8000, 8, "Elite Hunter"),
   (12000, 9, "Master Hunter"),
   (18000, 10, "Legendary Hunter")]

/-- The `for ... in reversed(...)` scan of `get_level_and_title`: first
entry (in the given order) whose threshold is `≤ total_xp`. -/
def find_band (total_xp : Int) : List (Int × Int × String) → Option (Int × Int × String)
  | [] => none
  | (thr, lvl, ttl) :: rest =>
      if thr ≤ total_xp then some (thr, lvl, ttl) else find_band total_xp rest

/-- `get_level_and_title` from the source. -/
def get_level_and_title (total_xp : Int) : Int × String :=
  match find_band total_xp LEVEL_THRESHOLDS.reverse with
  | some (_, lvl, ttl) => (lvl, ttl)
  | none => (1, "Starting Hunter")

/-- One row of the leaderboard (`HunterRow` dataclass).  `badges` models
the Python `Set[str]` as a duplicate-free list with set semantics. -/
structure HunterRow where
  hunter : String
  wallet : String
  xp : Int
  level : Int
  title : String
  badges : List String
  last_action : String
  notes : String

deriving Repr, DecidableEq, Inhabited

/-- The sequential bonus accumulation of `calculate_xp`, with the ten
XP-contributing conditions abstracted as booleans (in source order:
bounty-approved, PR merged, issue closed, micro, standard, major,
critical, tutorial/docs, vintage, outreach). -/
def calc_xp_pre (bApproved bMerged bClosed bMicro bStd bMajor bCrit bDocs bVint bOutr : Bool) : Int :=
  let xp : Int := 0
  let xp := if bApproved then xp + 200 else xp
  let xp := if bMerged then xp + 300 else xp
  let xp := if bClosed then xp + 80 else xp
  let xp := if bMicro then xp + 50 else xp
  let xp := if bStd then xp + 100 else xp
  let xp := if bMajor then xp + 200 else xp
  let xp := if bCrit then xp + 300 else xp
  let xp := if bDocs then xp + 150 else xp
  let xp := if bVint then xp + 100 else xp
  if bOutr then xp + 30 else xp

/-- The final `if xp == 0: xp = 50` clause of `calculate_xp`. -/
def calc_xp_core (bApproved bMerged bClosed bMicro bStd bMajor bCrit bDocs bVint bOutr : Bool) : Int :=
  let xp := calc_xp_pre bApproved bMerged bClosed bMicro bStd bMajor bCrit bDocs bVint bOutr
  if xp = 0 then 50 else xp

/-- Leftmost match of the `(\d+)\s*rtc` search of `calculate_xp` on a
char list: a maximal digit run, optional whitespace, then `rtc`;
returns the captured digits. -/
def rtcScan : List Char → Option (List Char)
  | [] => none
  | c :: rest =>
      if c.isDigit then
        let digits := c :: rest.takeWhile Char.isDigit
        let after := rest.dropWhile Char.isDigit
        let after := after.dropWhile pyIsSpace
        if ("rtc".data).isPrefixOf after then some digits
        else rtcScan rest
      else rtcScan rest

/-- The RTC reason clause: `re.search(r"(\d+)\s*rtc", ",".join(labels).lower())`. -/
def rtc_reason (labels : List String) : Option String :=
  (rtcScan ((pyLower (pyJoin "," labels)).data)).map (fun d => ⟨d⟩)

/-- The reason-clause accumulation of `calculate_xp`, in source order,
with the RTC clause inserted between the vintage and outreach rules. -/
def calc_reasons (bApproved bMerged bClosed bMicro bStd bMajor bCrit bDocs bVint bOutr : Bool)
    (rtc : Option String) (baseHit : Bool) : List String :=
  let rs : List String := []
  let rs := if bApproved then rs ++ ["bounty approved"] else rs
  let rs := if bMerged then rs ++ ["PR merged"] else rs
  let rs := if bClosed then rs ++ ["issue closed"] else rs
  let rs := if bMicro then rs ++ ["micro tier"] else rs
  let rs := if bStd then rs ++ ["standard tier"] else rs
  let rs := if bMajor then rs ++ ["major tier"] else rs
  let rs := if bCrit then rs ++ ["critical tier"] else rs
  let rs := if bDocs then rs ++ ["tutorial/docs"] else rs
  let rs := if bVint then rs ++ ["vintage bonus"] else rs
  let rs := match rtc with | some d => rs ++ [d ++ " RTC"] | none => rs
  let rs := if bOutr then rs ++ ["outreach bonus"] else rs
  if baseHit then rs ++ ["base action"] else rs

/-- `calculate_xp` from the source: labels are the (lower-cased) label set. -/
def calculate_xp (event_type event_action : String) (labels : List String)
    (pr_merged : Bool) : Int × String :=
  let bApproved := decide ("bounty-approved" ∈ labels)
  let bMerged := pr_merged
  let bClosed := decide (event_type = "issues" ∧ event_action = "closed")
  let bMicro := decide ("micro" ∈ labels)
  let bStd := decide ("standard" ∈ labels)
  let bMajor := decide ("major" ∈ labels)
  let bCrit := decide ("critical" ∈ labels)
  let bDocs := decide ("tutorial" ∈ labels ∨ "docs" ∈ labels)
  let bVint := decide ("vintage" ∈ labels)
  let bOutr := decide ("outreach" ∈ labels ∨ "seo" ∈ labels ∨ "marketing" ∈ labels)
  let xp := calc_xp_core bApproved bMerged bClosed bMicro bStd bMajor bCrit bDocs bVint bOutr
  let baseHit := decide (calc_xp_pre bApproved bMerged bClosed bMicro bStd bMajor bCrit bDocs bVint bOutr = 0)
  let rs := calc_reasons bApproved bMerged bClosed bMicro bStd bMajor bCrit bDocs bVint bOutr
      (rtc_reason labels) baseHit
  (xp, pyJoin ", " rs)

example : (calculate_xp "issues" "closed" ["standard"] false).1 = 180 := by decide

example : calculate_xp "workflow_dispatch" "" [] false = (50, "base action") := by decide

example : (calculate_xp "x" "" ["5 rtc"] false).2 = "5 RTC, base action" := by decide

/-- `BADGE_STYLE` from the source (badge name ↦ color, logo, logo color). -/
def BADGE_STYLE : List (String × String × String × String) :=
  [("First Blood", "red", "git", "white"),
   ("Rising Hunter", "orange", "rocket", "white"),
   ("Multiplier Hunter", "yellow", "star", "black"),
   ("Veteran Hunter", "purple", "shield", "white"),
   ("Legendary Hunter", "gold", "crown", "black"),
   ("Vintage Veteran", "purple", "apple", "white"),
   ("Agent Overlord", "cyan", "robot", "white"),
   ("Tutorial Titan", "blue", "book", "white"),
   ("Bug Slayer", "darkred", "bug", "white"),
   ("Outreach Pro", "teal", "twitter", "white"),
   ("Streak Master", "green", "fire", "white")]

def hexDigitUpper (n : Nat) : Char :=
  if n < 10 then Char.ofNat (48 + n) else Char.ofNat (55 + n)

/-- `urllib.parse.quote` restricted to one-byte code points (the badge
names are ASCII): unreserved characters and `/` pass through, the rest
become `%XX` with uppercase hex. -/
def pyQuoteChar (c : Char) : List Char :=
  if c.isAlphanum || c = '_' || c = '.' || c = '-' || c = '~' || c = '/' then [c]
  else ['%', hexDigitUpper (c.toNat / 16 % 16), hexDigitUpper (c.toNat % 16)]

def pyQuote (s : String) : String := ⟨(s.data.map pyQuoteChar).flatten⟩

/-- `badge_url` from the source. -/
def badge_url (name : String) : String :=
  let style := ((BADGE_STYLE.find? (fun p => p.1 = name)).map Prod.snd).getD
    ("blue", "star", "white")
  "https://img.shields.io/badge/" ++ pyQuote name ++ "-" ++ style.1
    ++ "?style=flat-square&logo=" ++ style.2.1 ++ "&logoColor=" ++ style.2.2

/-- `badge_md` from the source. -/
def badge_md (name : String) : String :=
  "![" ++ name ++ "](" ++ badge_url name ++ ")"

/-- The `re.findall(r"!\[([^\]]+)\]", cell)` scan of `parse_badges`,
with explicit fuel to keep the recursion structural; one fuel unit is
spent per scanned position, and the initial fuel `l.length` always
suffices because every step shortens the list by at least one character. -/
def findBadgeNamesGo : Nat → List Char → List String
  | 0, _ => []
  | _ + 1, [] => []
  | fuel + 1, '!' :: '[' :: rest =>
      if rest.dropWhile (fun c => c ≠ ']') = [] then []
      else if rest.takeWhile (fun c => c ≠ ']') ≠ [] then
        (⟨rest.takeWhile (fun c => c ≠ ']')⟩ : String)
          :: findBadgeNamesGo fuel ((rest.dropWhile (fun c => c ≠ ']')).tail)
      else findBadgeNamesGo fuel rest
  | fuel + 1, _ :: rest => findBadgeNamesGo fuel rest

def findBadgeNames (l : List Char) : List String := findBadgeNamesGo l.length l

/-- `parse_badges` from the source: first the markdown-image captures,
falling back to comma-separated plain names. -/
def parse_badges (cell : String) : List String :=
  let names := dedupStr (findBadgeNames cell.data)
  if names ≠ [] then names
  else
    dedupStr (((pySplit cell ',').map pyStrip).filter
      (fun t => t ≠ "" && t ≠ "-"))

/-- Ascending code-point comparison on char lists (Python string `<=`). -/
def clLe : List Char → List Char → Bool
  | [], _ => true
  | _ :: _, [] => false
  | a :: as_, b :: bs => if a.toNat < b.toNat then true
      else if b.toNat < a.toNat then false else clLe as_ bs

def strLe (a b : String) : Bool := clLe a.data b.data

/-- Stable insertion into a `le`-sorted list: the new element goes after
existing elements it does not strictly precede. -/
def insertLe {α : Type} (le : α → α → Bool) (x : α) : List α → List α
  | [] => [x]
  | y :: ys => if le y x then y :: insertLe le x ys else x :: y :: ys

/-- Stable sort by a boolean total preorder, modelling Python `list.sort`. -/
def sortLe {α : Type} (le : α → α → Bool) : List α → List α
  | [] => []
  | x :: xs => insertLe le x (sortLe le xs)

/-- `sorted(names)` from `format_badges` (ascending code-point order). -/
def format_badges (names : List String) : String :=
  if names = [] then "-"
  else pyJoin " " ((sortLe strLe names).map badge_md)

/-- `parse_table_cells` from the source: strip, split on `|`, drop the
outer empty pieces, strip each cell. -/
def parse_table_cells (line : String) : List String :=
  (((pySplit (pyStrip line) '|').drop 1).dropLast).map pyStrip

/-- `render_row` from the source. -/
def render_row (rank : Nat) (row : HunterRow) : String :=
  "| " ++ toString rank ++ " | " ++ row.hunter ++ " | " ++ row.wallet ++ " | "
    ++ toString row.xp ++ " | " ++ toString row.level ++ " | " ++ row.title ++ " | "
    ++ format_badges row.badges ++ " | " ++ row.last_action ++ " | " ++ row.notes ++ " |"

/-- Python `int(float(s))` on the decimal literals that occur in XP and
level cells: optional sign, digits, optional fraction, truncated toward
zero.  (Python also accepts exponent forms; the cells this script reads
and writes are plain integers.)  `none` models the raised `ValueError`. -/
def pyIntFloat (s : String) : Option Int :=
  let l := s.data
  let (sign, body) : Int × List Char :=
    match l with
    | '-' :: rest => (-1, rest)
    | '+' :: rest => (1, rest)
    | _ => (1, l)
  let intPart := body.takeWhile Char.isDigit
  let rest := body.dropWhile Char.isDigit
  let fracOk : Bool :=
    match rest with
    | [] => intPart ≠ []
    | '.' :: frac => (intPart ≠ [] || frac ≠ []) && frac.all Char.isDigit
    | _ => false
  if fracOk then
    some (sign * Int.ofNat (intPart.foldl (fun n c => n * 10 + (c.toNat - 48)) 0))
  else none

example : pyIntFloat "123" = some 123 := by decide

example : pyIntFloat "-4.75" = some (-4) := by decide

example : pyIntFloat "" = none := by decide

example : pyIntFloat "abc" = none := by decide

/-- `parse_hunter_row` from the source: `none` both for the `< 7` early
return and models nothing else; the 9-column and legacy 7/8-column
schemas are dispatched on the cell count. -/
def parse_hunter_row (cells : List String) : Option HunterRow :=
  if cells.length < 7 then none
  else if 9 ≤ cells.length then
    let xp_val := (pyIntFloat (cells.getD 3 "")).getD 0
    let level_val := (pyIntFloat (cells.getD 4 "")).getD (get_level_and_title xp_val).1
    let t5 := pyStrip (cells.getD 5 "")
    let title_val := if t5 ≠ "" then t5 else (get_level_and_title xp_val).2
    let w := pyStrip (cells.getD 2 "")
    some { hunter := pyStrip (cells.getD 1 "")
           wallet := if w ≠ "" then w else "_TBD_"
           xp := xp_val
           level := level_val
           title := title_val
           badges := parse_badges (cells.getD 6 "")
           last_action := pyStrip (cells.getD 7 "")
           notes := pyStrip (cells.getD 8 "") }
  else
    let xp_val := (pyIntFloat (cells.getD 3 "")).getD 0
    let level_val := (pyIntFloat (cells.getD 4 "")).getD (get_level_and_title xp_val).1
    let w := pyStrip (cells.getD 2 "")
    some { hunter := pyStrip (cells.getD 1 "")
           wallet := if w ≠ "" then w else "_TBD_"
           xp := xp_val
           level := level_val
           title := (get_level_and_title xp_val).2
           badges := []
           last_action := if 5 < cells.length then pyStrip (cells.getD 5 "") else ""
           notes := if 6 < cells.length then pyStrip (cells.getD 6 "") else "" }

/-- The eleven badge rules of `determine_new_badges`, in source order,
evaluated against the post-award state. -/
def badge_rules (new_xp : Int) (labels : List String) (actor : String) :
    List (String × Bool) :=
  [("First Blood", decide (0 < new_xp)),
   ("Rising Hunter", decide (1000 ≤ new_xp)),
   ("Multiplier Hunter", decide (2000 ≤ new_xp)),
   ("Veteran Hunter", decide (5500 ≤ new_xp)),
   ("Legendary Hunter", decide (18000 ≤ new_xp)),
   ("Vintage Veteran", decide ("vintage" ∈ labels)),
   ("Tutorial Titan", decide ("tutorial" ∈ labels ∨ "docs" ∈ labels)),
   ("Bug Slayer", decide ("bug" ∈ labels ∨ "security" ∈ labels ∨ "critical" ∈ labels)),
   ("Outreach Pro", decide ("outreach" ∈ labels ∨ "seo" ∈ labels ∨ "marketing" ∈ labels)),
   ("Streak Master", decide ("streak" ∈ labels)),
   ("Agent Overlord", containsSubCL ("agent".data) ((pyLower actor).data) && decide (500 ≤ new_xp))]

/-- The inner `maybe` closure of `determine_new_badges`. -/
def maybe_step (existing : List String) (unlocked : List String)
    (rule : String × Bool) : List String :=
  if rule.2 = true ∧ rule.1 ∉ existing ∧ rule.1 ∉ unlocked
  then unlocked ++ [rule.1] else unlocked

/-- `determine_new_badges` from the source (`old_xp` is accepted and,
as in the source, unused by every rule). -/
def determine_new_badges (existing : List String) (old_xp new_xp : Int)
    (labels : List String) (actor : String) : List String :=
  (badge_rules new_xp labels actor).foldl (maybe_step existing) []

example :
    determine_new_badges [] 0 1050 [] "bob" = ["First Blood", "Rising Hunter"] := by
  decide

example :
    determine_new_badges ["First Blood"] 0 50 ["vintage"] "agentX" =
      ["Vintage Veteran"] := by
  decide

/-- The `\d{4}-\d{2}-\d{2}` tail of the `update_frontmatter` pattern. -/
def datePat (l : List Char) : Bool :=
  match l with
  | a :: b :: c :: d :: '-' :: e :: f :: '-' :: g :: h :: _ =>
      a.isDigit && b.isDigit && c.isDigit && d.isDigit
        && e.isDigit && f.isDigit && g.isDigit && h.isDigit
  | _ => false

/-- Length of the `last_updated:\s*\d{4}-\d{2}-\d{2}` match starting at
the head of `l`, if any (`\s*` is necessarily the maximal whitespace run,
since `\s` and `\d` are disjoint). -/
def fmMatchLen (l : List Char) : Option Nat :=
  if ("last_updated:".data).isPrefixOf l then
    let rest := l.drop 13
    let nws := (rest.takeWhile pyIsSpace).length
    if datePat (rest.drop nws) then some (13 + nws + 10) else none
  else none

/-- The scan of `re.sub(..., count=1)`: replace the leftmost match. -/
def fmSub (today : String) : List Char → List Char
  | [] => []
  | c :: rest =>
      match fmMatchLen (c :: rest) with
      | some n => ("last_updated: ".data) ++ today.data ++ (c :: rest).drop n
      | none => c :: fmSub today rest

/-- `update_frontmatter` from the source, with `date.today().isoformat()`
injected as `today`. -/
def update_frontmatter (today : String) (md : String) : String :=
  ⟨fmSub today md.data⟩

example :
    update_frontmatter "2026-02-03" "a\nlast_updated: 2024-05-06\nb" =
      "a\nlast_updated: 2026-02-03\nb" := by decide

/-! `update_table_in_md`, decomposed into its successive intermediate
values; each helper below names one local of the source function, and
`update_table_in_md` itself is their composition. -/

/-- The header search `line.strip().startswith("| Rank | Hunter")`. -/
def header_pred (line : String) : Bool :=
  pyStartsWith (pyStrip line) "| Rank | Hunter"

def lines_of (md : String) : List String := splitlinesPy md

/-- First index satisfying a predicate (the `for i, line in enumerate`
search loops of `update_table_in_md`). -/
def firstIdxWhere {α : Type} (p : α → Bool) : List α → Option Nat
  | [] => none
  | x :: rest => if p x then some 0 else (firstIdxWhere p rest).map (· + 1)

/-- `header_idx`: index of the first header line, `none` for the `-1`
failure case. -/
def find_header_idx (lines : List String) : Option Nat := firstIdxWhere header_pred lines

/-- The `while` scan collecting the `|`-prefixed lines from
`start = header_idx + 2`. -/
def table_lines_of (md : String) : List String :=
  match find_header_idx (lines_of md) with
  | some h => ((lines_of md).drop (h + 2)).takeWhile (fun l => pyStartsWith (pyStrip l) "|")
  | none => []

/-- The row-collection loop: parse each table line, skipping unparsable
rows and the `_TBD_` template row. -/
def parsed_rows (tls : List String) : List HunterRow :=
  tls.filterMap (fun line =>
    (parse_hunter_row (parse_table_cells line)).bind
      (fun row => if row.hunter = "_TBD_" then none else some row))

def parsed_rows_of (md : String) : List HunterRow := parsed_rows (table_lines_of md)

/-- One step of the retroactive badge backfill pass. -/
def backfill_row (row : HunterRow) : HunterRow :=
  { row with
    badges := sunion row.badges (determine_new_badges row.badges row.xp row.xp [] row.hunter) }

def backfilled_of (md : String) : List HunterRow := (parsed_rows_of md).map backfill_row

def actor_key (actor : String) : String := "@" ++ actor

/-- The target-location loop: first row whose stripped handle equals
`actor_key` (exact, case-sensitive string equality). -/
def target_idx_of (md actor : String) : Option Nat :=
  firstIdxWhere (fun row => pyStrip row.hunter = actor_key actor) (backfilled_of md)

/-- The fresh record created when the target is absent. -/
def fresh_row (key : String) : HunterRow :=
  { hunter := key, wallet := "_TBD_", xp := 0, level := 1,
    title := "Starting Hunter", badges := [], last_action := "first award",
    notes := "auto-tracked" }

/-- The row list after the optional append of the fresh target. -/
def rows1_of (md actor : String) : List HunterRow :=
  match target_idx_of md actor with
  | some _ => backfilled_of md
  | none => backfilled_of md ++ [fresh_row (actor_key actor)]

/-- Position of the target row inside `rows1_of`. -/
def t_idx_of (md actor : String) : Nat :=
  (target_idx_of md actor).getD (backfilled_of md).length

def target_of (md actor : String) : HunterRow :=
  (rows1_of md actor).getD (t_idx_of md actor) (fresh_row (actor_key actor))

def old_xp_of (md actor : String) : Int := (target_of md actor).xp

def new_total_of (md actor : String) (gained : Int) : Int := old_xp_of md actor + gained

def unlocked_of (md actor : String) (gained : Int) (labels : List String) : List String :=
  determine_new_badges (target_of md actor).badges (old_xp_of md actor)
    (new_total_of md actor gained) labels actor

/-- The in-place mutation of the target row. -/
def target_upd_of (stamp md actor : String) (gained : Int) (reason : String)
    (labels : List String) : HunterRow :=
  { target_of md actor with
    badges := sunion (target_of md actor).badges (unlocked_of md actor gained labels)
    xp := new_total_of md actor gained
    level := (get_level_and_title (new_total_of md actor gained)).1
    title := (get_level_and_title (new_total_of md actor gained)).2
    last_action := stamp ++ " (+" ++ toString gained ++ " XP: " ++ reason ++ ")" }

def rows2_of (stamp md actor : String) (gained : Int) (reason : String)
    (labels : List String) : List HunterRow :=
  (rows1_of md actor).set (t_idx_of md actor) (target_upd_of stamp md actor gained reason labels)

/-- The sort key `(-row.xp, row.hunter.lower())`, as a boolean `≤`. -/
def row_le (r s : HunterRow) : Bool :=
  if r.xp = s.xp then strLe (pyLower r.hunter) (pyLower s.hunter) else decide (s.xp < r.xp)

def final_rows_of (stamp md actor : String) (gained : Int) (reason : String)
    (labels : List String) : List HunterRow :=
  sortLe row_le (rows2_of stamp md actor gained reason labels)

def placeholder_row_line : String :=
  "| 1 | _TBD_ | _TBD_ | 0 | 1 | Starting Hunter | - | bootstrap | tracker initialized |"

/-- `new_table_lines` with the empty-table placeholder fallback. -/
def new_table_lines_of (stamp md actor : String) (gained : Int) (reason : String)
    (labels : List String) : List String :=
  let tl := (final_rows_of stamp md actor gained reason labels).mapIdx
    (fun i row => render_row (i + 1) row)
  if tl = [] then [placeholder_row_line] else tl

/-- The audit line prepended to the `## Latest Awards` log. -/
def award_line_of (stamp actor : String) (gained : Int) (reason : String)
    (new_total level : Int) (title : String) (unlocked : List String) : String :=
  let base := "- " ++ stamp ++ ": @" ++ actor ++ " earned **" ++ toString gained
    ++ " XP** (" ++ reason ++ ") -> Total: " ++ toString new_total
    ++ " XP (Level " ++ toString level ++ " - " ++ title ++ ")"
  if unlocked ≠ [] then base ++ " | New badges: " ++ pyJoin ", " unlocked else base

/-- The `## Latest Awards` insertion logic (marker may be absent). -/
def insert_award (md_new award : String) : String :=
  match pyFind md_new "## Latest Awards" with
  | some idx =>
      match pyFindFrom md_new "\n\n" idx with
      | some ins => pyTake md_new (ins + 2) ++ award ++ "\n" ++ pyDrop md_new (ins + 2)
      | none => md_new ++ "\n\n" ++ award ++ "\n"
  | none => md_new ++ "\n\n## Latest Awards\n\n" ++ award ++ "\n"

structure UpdateResult where
  md : String
  new_total : Int
  level : Int
  title : String
  unlocked : List String

deriving Repr, DecidableEq, Inhabited

/-- `update_table_in_md` from the source; the `RuntimeError` raised when
the table header is missing becomes the `Except.error` case. -/
def update_table_in_md (stamp md actor : String) (gained : Int) (reason : String)
    (labels : List String) : Except String UpdateResult :=
  match find_header_idx (lines_of md) with
  | none => Except.error "Leaderboard table header not found"
  | some h =>
      let lines := lines_of md
      let rebuilt := lines.take (h + 2)
        ++ new_table_lines_of stamp md actor gained reason labels
        ++ lines.drop (h + 2 + (table_lines_of md).length)
      let md_new := pyJoin "\n" rebuilt
      let nt := new_total_of md actor gained
      let lvl := (get_level_and_title nt).1
      let ttl := (get_level_and_title nt).2
      let unl := unlocked_of md actor gained labels
      let award := award_line_of stamp actor gained reason nt lvl ttl unl
      Except.ok { md := pyRstrip (insert_award md_new award) ++ "\n"
                  new_total := nt, level := lvl, title := ttl, unlocked := unl }

/-- Outcome of one conditional `PUT`: success with the commit URL, a 409
version conflict, or any other `HTTPError` (re-raised by the source). -/
inductive PutResult where
  | ok (url : String)
  | conflict
  | fatal (msg : String)

deriving Repr, DecidableEq

/-- The remote store as seen by the retry loop: the document returned by
the `GET` of attempt `t`, and the outcome of the conditional `PUT` of
attempt `t`. -/
structure Store where
  fetch : Nat → String
  put : Nat → PutResult

/-- The JSON result printed by `main` in API mode, extended with the
bookkeeping the temporal claims are about: the attempt number at which
the loop stopped and the content a successful `PUT` wrote. -/
structure ApiResult where
  actor : String
  awarded_xp : Int
  total_xp : Int
  level : Int
  title : String
  result_reason : String
  new_badges : List String
  commit_url : String
  attempts : Nat
  committed : Option String

deriving Repr, DecidableEq

def max_attempts : Nat := 4

/-- The `for attempt in range(1, max_attempts + 1)` read-modify-write
loop of `main` (API mode): fetch, stamp the front matter, rebuild the
table, then attempt the conditional write; a 409 before the last attempt
restarts the whole cycle, a 409 on the last attempt degrades the result,
any other failure aborts.  `fuel` counts the attempts still allowed and
starts at `max_attempts`. -/
def api_loop (stamp today actor : String) (gained : Int) (reason : String)
    (labels : List String) (st : Store) : Nat → Nat → Except String ApiResult
  | 0, _ => Except.error "retry loop left without a break"
  | fuel + 1, attempt =>
      let content := update_frontmatter today (st.fetch attempt)
      match update_table_in_md stamp content actor gained reason labels with
      | Except.error e => Except.error e
      | Except.ok u =>
          match st.put attempt with
          | PutResult.ok url =>
              Except.ok { actor := actor, awarded_xp := gained, total_xp := u.new_total
                          level := u.level, title := u.title, result_reason := reason
                          new_badges := u.unlocked, commit_url := url
                          attempts := attempt, committed := some u.md }
          | PutResult.conflict =>
              if attempt < max_attempts then
                api_loop stamp today actor gained reason labels st fuel (attempt + 1)
              else
                Except.ok { actor := actor, awarded_xp := gained, total_xp := u.new_total
                            level := u.level, title := u.title
                            result_reason := reason ++ "; commit_conflict_skipped"
                            new_badges := u.unlocked, commit_url := ""
                            attempts := attempt, committed := none }
          | PutResult.fatal e => Except.error e

/-- API-mode `main` after argument parsing: `gained`/`reason` are the
`calculate_xp` outputs, computed once before the loop. -/
def run_api (stamp today actor : String) (gained : Int) (reason : String)
    (labels : List String) (st : Store) : Except String ApiResult :=
  api_loop stamp today actor gained reason labels st max_attempts 1

/-- Modelled from the spec: the list of fixed constants contributed by
each firing bonus rule (used only as the refinement target of the claim
that `calculate_xp` sums the contributing rules). -/
def spec_contributing_bonuses (bApproved bMerged bClosed bMicro bStd bMajor bCrit bDocs bVint bOutr : Bool) : List Int :=
  (if bApproved then [200] else []) ++ (if bMerged then [300] else [])
    ++ (if bClosed then [80] else []) ++ (if bMicro then [50] else [])
    ++ (if bStd then [100] else []) ++ (if bMajor then [200] else [])
    ++ (if bCrit then [300] else []) ++ (if bDocs then [150] else [])
    ++ (if bVint then [100] else []) ++ (if bOutr then [30] else [])

def fbDoc : String := "| Rank | Hunter | Wallet | XP | Level | Title | Badges | Last Action | Notes |\n|---|\n\n## Latest Awards\n\n"

/-- A well-formed ledger whose `@bob` row carries level/title cells
(9, "Master Hunter") inconsistent with its XP cell (100). -/
def c1Doc : String := "# XP Tracker\nlast_updated: 2024-01-01\n\n| Rank | Hunter | Wallet | XP | Level | Title | Badges | Last Action | Notes |\n|---|---|---|---|---|---|---|---|---|\n| 1 | @bob | w1 | 100 | 9 | Master Hunter | - | x | y |\n\n## Latest Awards\n\n- old line\n"

/-- A ledger with a valid table but no `## Latest Awards` heading. -/
def c6Doc : String := "| Rank | Hunter | Wallet | XP | Level | Title | Badges | Last Action | Notes |\n|---|---|---|---|---|---|---|---|---|\n| 1 | @bob | w | 10 | 1 | Starting Hunter | - | x | y |\n"

def noHeaderDoc : String := "hello\nworld\n"

def noHeaderStore : Store :=
  { fetch := fun _ => noHeaderDoc, put := fun _ => PutResult.conflict }

/-- A ledger whose only row is `@Alice` (capital A) with 10 XP. -/
def c7Doc : String := "| Rank | Hunter | Wallet | XP | Level | Title | Badges | Last Action | Notes |\n|---|---|---|---|---|---|---|---|---|\n| 1 | @Alice | w | 10 | 1 | Starting Hunter | - | x | y |\n\n## Latest Awards\n\n"

/-- A well-formed ledger served by the simulated stores below. -/
def retryDoc : String := "| Rank | Hunter | Wallet | XP | Level | Title | Badges | Last Action | Notes |\n|---|---|---|---|---|---|---|---|---|\n| 1 | @bob | w | 10 | 1 | Starting Hunter | - | x | y |\n\n## Latest Awards\n\n"

/-- Simulated store: conflict on attempt 1, success from attempt 2 on. -/
def c2Store : Store :=
  { fetch := fun _ => retryDoc,
    put := fun t => if t = 1 then PutResult.conflict else PutResult.ok "https://commit/1" }

/-- Simulated store that always reports a version conflict. -/
def c3Store : Store :=
  { fetch := fun _ => retryDoc, put := fun _ => PutResult.conflict }

set_option maxHeartbeats 1000000 in
/-- Closed form of `get_level_and_title` over the concrete threshold table. -/
theorem glt_ifs (xp : Int) : get_level_and_title xp =
    if 18000 ≤ xp then (10, "Legendary Hunter")
    else if 12000 ≤ xp then (9, "Master Hunter")
    else if 8000 ≤ xp then (8, "Elite Hunter")
    else if 5500 ≤ xp then (7, "Veteran Hunter")
    else if 3500 ≤ xp then (6, "Featured Hunter")
    else if 2000 ≤ xp then (5, "Multiplier Hunter")
    else if 1000 ≤ xp then (4, "Rising Hunter")
    else if 500 ≤ xp then (3, "Priority Hunter")
    else if 200 ≤ xp then (2, "Basic Hunter")
    else (1, "Starting Hunter") := by
  have hrev : LEVEL_THRESHOLDS.reverse =
      [(18000, 10, "Legendary Hunter"), (12000, 9, "Master Hunter"),
       (8000, 8, "Elite Hunter"), (5500, 7, "Veteran Hunter"),
       (3500, 6, "Featured Hunter"), (2000, 5, "Multiplier Hunter"),
       (1000, 4, "Rising Hunter"), (500, 3, "Priority Hunter"),
       (200, 2, "Basic Hunter"), (0, 1, "Starting Hunter")] := by rfl
  unfold get_level_and_title
  rw [hrev]
  simp only [find_band]
  split_ifs <;> rfl

/-- C4: for non-negative XP the returned pair is the band of the largest
threshold not exceeding the XP (inclusive lower bounds), and any XP at or
below every positive threshold — 0 and negatives included — yields the
lowest band, without failure. -/
theorem level_band_exact (xp : Int) :
    (0 ≤ xp → ∃ thr lvl ttl, (thr, lvl, ttl) ∈ LEVEL_THRESHOLDS ∧
      get_level_and_title xp = (lvl, ttl) ∧ thr ≤ xp ∧
      ∀ thr2 lvl2 ttl2, (thr2, lvl2, ttl2) ∈ LEVEL_THRESHOLDS → thr2 ≤ xp → thr2 ≤ thr)
    ∧ (xp ≤ 0 → get_level_and_title xp = (1, "Starting Hunter")) := by
  constructor
  · intro h0
    rw [glt_ifs]
    by_cases h1 : (18000 : Int) ≤ xp
    · refine ⟨18000, 10, "Legendary Hunter", by decide, by simp [h1], h1, ?_⟩
      intro thr2 lvl2 ttl2 hmem hle
      simp only [LEVEL_THRESHOLDS, List.mem_cons, List.not_mem_nil, or_false,
        Prod.mk.injEq] at hmem
      rcases hmem with ⟨rfl, -⟩|⟨rfl, -⟩|⟨rfl, -⟩|⟨rfl, -⟩|⟨rfl, -⟩|⟨rfl, -⟩|⟨rfl, -⟩|⟨rfl, -⟩|⟨rfl, -⟩|⟨rfl, -⟩ <;> omega
    ·
      by_cases h2 : (12000 : Int) ≤ xp
      · refine ⟨12000, 9, "Master Hunter", by decide, by simp [h1, h2], h2, ?_⟩
        intro thr2 lvl2 ttl2 hmem hle
        simp only [LEVEL_THRESHOLDS, List.mem_cons, List.not_mem_nil, or_false,
          Prod.mk.injEq] at hmem
        rcases hmem with ⟨rfl, -⟩|⟨rfl, -⟩|⟨rfl, -⟩|⟨rfl, -⟩|⟨rfl, -⟩|⟨rfl, -⟩|⟨rfl, -⟩|⟨rfl, -⟩|⟨rfl, -⟩|⟨rfl, -⟩ <;> omega
      ·
        by_cases h3 : (8000 : Int) ≤ xp
        · refine ⟨8000, 8, "Elite Hunter", by decide, by simp [h1, h2, h3], h3, ?_⟩
          intro thr2 lvl2 ttl2 hmem hle
          simp only [LEVEL_THRESHOLDS, List.mem_cons, List.not_mem_nil, or_false,
            Prod.mk.injEq] at hmem
          rcases hmem with ⟨rfl, -⟩|⟨rfl, -⟩|⟨rfl, -⟩|⟨rfl, -⟩|⟨rfl, -⟩|⟨rfl, -⟩|⟨rfl, -⟩|⟨rfl, -⟩|⟨rfl, -⟩|⟨rfl, -⟩ <;> omega
        ·
          by_cases h4 : (5500 : Int) ≤ xp
          · refine ⟨5500, 7, "Veteran Hunter", by decide, by simp [h1, h2, h3, h4], h4, ?_⟩
            intro thr2 lvl2 ttl2 hmem hle
            simp only [LEVEL_THRESHOLDS, List.mem_cons, List.not_mem_nil, or_false,
              Prod.mk.injEq] at hmem
            rcases hmem with ⟨rfl, -⟩|⟨rfl, -⟩|⟨rfl, -⟩|⟨rfl, -⟩|⟨rfl, -⟩|⟨rfl, -⟩|⟨rfl, -⟩|⟨rfl, -⟩|⟨rfl, -⟩|⟨rfl, -⟩ <;> omega
          ·
            by_cases h5 : (3500 : Int) ≤ xp
            · refine ⟨3500, 6, "Featured Hunter", by decide, by simp [h1, h2, h3, h4, h5], h5, ?_⟩
              intro thr2 lvl2 ttl2 hmem hle
              simp only [LEVEL_THRESHOLDS, List.mem_cons, List.not_mem_nil, or_false,
                Prod.mk.injEq] at hmem
              rcases hmem with ⟨rfl, -⟩|⟨rfl, -⟩|⟨rfl, -⟩|⟨rfl, -⟩|⟨rfl, -⟩|⟨rfl, -⟩|⟨rfl, -⟩|⟨rfl, -⟩|⟨rfl, -⟩|⟨rfl, -⟩ <;> omega
            ·
              by_cases h6 : (2000 : Int) ≤ xp
              · refine ⟨2000, 5, "Multiplier Hunter", by decide, by simp [h1, h2, h3, h4, h5, h6], h6, ?_⟩
                intro thr2 lvl2 ttl2 hmem hle
                simp only [LEVEL_THRESHOLDS, List.mem_cons, List.not_mem_nil, or_false,
                  Prod.mk.injEq] at hmem
                rcases hmem with ⟨rfl, -⟩|⟨rfl, -⟩|⟨rfl, -⟩|⟨rfl, -⟩|⟨rfl, -⟩|⟨rfl, -⟩|⟨rfl, -⟩|⟨rfl, -⟩|⟨rfl, -⟩|⟨rfl, -⟩ <;> omega
              ·
                by_cases h7 : (1000 : Int) ≤ xp
                · refine ⟨1000, 4, "Rising Hunter", by decide, by simp [h1, h2, h3, h4, h5, h6, h7], h7, ?_⟩
                  intro thr2 lvl2 ttl2 hmem hle
                  simp only [LEVEL_THRESHOLDS, List.mem_cons, List.not_mem_nil, or_false,
                    Prod.mk.injEq] at hmem
                  rcases hmem with ⟨rfl, -⟩|⟨rfl, -⟩|⟨rfl, -⟩|⟨rfl, -⟩|⟨rfl, -⟩|⟨rfl, -⟩|⟨rfl, -⟩|⟨rfl, -⟩|⟨rfl, -⟩|⟨rfl, -⟩ <;> omega
                ·
                  by_cases h8 : (500 : Int) ≤ xp
                  · refine ⟨500, 3, "Priority Hunter", by decide, by simp [h1, h2, h3, h4, h5, h6, h7, h8], h8, ?_⟩
                    intro thr2 lvl2 ttl2 hmem hle
                    simp only [LEVEL_THRESHOLDS, List.mem_cons, List.not_mem_nil, or_false,
                      Prod.mk.injEq] at hmem
                    rcases hmem with ⟨rfl, -⟩|⟨rfl, -⟩|⟨rfl, -⟩|⟨rfl, -⟩|⟨rfl, -⟩|⟨rfl, -⟩|⟨rfl, -⟩|⟨rfl, -⟩|⟨rfl, -⟩|⟨rfl, -⟩ <;> omega
                  ·
                    by_cases h9 : (200 : Int) ≤ xp
                    · refine ⟨200, 2, "Basic Hunter", by decide, by simp [h1, h2, h3, h4, h5, h6, h7, h8, h9], h9, ?_⟩
                      intro thr2 lvl2 ttl2 hmem hle
                      simp only [LEVEL_THRESHOLDS, List.mem_cons, List.not_mem_nil, or_false,
                        Prod.mk.injEq] at hmem
                      rcases hmem with ⟨rfl, -⟩|⟨rfl, -⟩|⟨rfl, -⟩|⟨rfl, -⟩|⟨rfl, -⟩|⟨rfl, -⟩|⟨rfl, -⟩|⟨rfl, -⟩|⟨rfl, -⟩|⟨rfl, -⟩ <;> omega
                    ·
                      refine ⟨0, 1, "Starting Hunter", by decide, by simp [h1, h2, h3, h4, h5, h6, h7, h8, h9], h0, ?_⟩
                      intro thr2 lvl2 ttl2 hmem hle
                      simp only [LEVEL_THRESHOLDS, List.mem_cons, List.not_mem_nil, or_false,
                        Prod.mk.injEq] at hmem
                      rcases hmem with ⟨rfl, -⟩|⟨rfl, -⟩|⟨rfl, -⟩|⟨rfl, -⟩|⟨rfl, -⟩|⟨rfl, -⟩|⟨rfl, -⟩|⟨rfl, -⟩|⟨rfl, -⟩|⟨rfl, -⟩ <;> omega
  · intro hneg
    rw [glt_ifs]
    split_ifs <;> first | rfl | omega

/-- Witness for `level_band_exact` at 2050 and at -5. -/
theorem level_band_exact_witness :
    (∃ thr lvl ttl, (thr, lvl, ttl) ∈ LEVEL_THRESHOLDS ∧
      get_level_and_title 2050 = (lvl, ttl) ∧ thr ≤ 2050 ∧
      ∀ thr2 lvl2 ttl2, (thr2, lvl2, ttl2) ∈ LEVEL_THRESHOLDS → thr2 ≤ 2050 → thr2 ≤ thr)
    ∧ get_level_and_title (-5) = (1, "Starting Hunter") :=
  ⟨(level_band_exact 2050).1 (by decide), (level_band_exact (-5)).2 (by decide)⟩

theorem calc_core_spec : ∀ b1 b2 b3 b4 b5 b6 b7 b8 b9 b10 : Bool,
    calc_xp_core b1 b2 b3 b4 b5 b6 b7 b8 b9 b10 =
      (if spec_contributing_bonuses b1 b2 b3 b4 b5 b6 b7 b8 b9 b10 = [] then 50
       else (spec_contributing_bonuses b1 b2 b3 b4 b5 b6 b7 b8 b9 b10).sum)
    ∧ 0 < calc_xp_core b1 b2 b3 b4 b5 b6 b7 b8 b9 b10 := by decide

/-- C8: the XP delta is the sum of the constants of the contributing
rules, is the 50-point base-action bonus when no rule contributes, and is
never 0. -/
theorem calculate_xp_sum_and_nonzero (event_type event_action : String)
    (labels : List String) (pr_merged : Bool) :
    (calculate_xp event_type event_action labels pr_merged).1 =
      (if spec_contributing_bonuses (decide ("bounty-approved" ∈ labels)) pr_merged
          (decide (event_type = "issues" ∧ event_action = "closed"))
          (decide ("micro" ∈ labels)) (decide ("standard" ∈ labels))
          (decide ("major" ∈ labels)) (decide ("critical" ∈ labels))
          (decide ("tutorial" ∈ labels ∨ "docs" ∈ labels)) (decide ("vintage" ∈ labels))
          (decide ("outreach" ∈ labels ∨ "seo" ∈ labels ∨ "marketing" ∈ labels)) = []
       then 50
       else (spec_contributing_bonuses (decide ("bounty-approved" ∈ labels)) pr_merged
          (decide (event_type = "issues" ∧ event_action = "closed"))
          (decide ("micro" ∈ labels)) (decide ("standard" ∈ labels))
          (decide ("major" ∈ labels)) (decide ("critical" ∈ labels))
          (decide ("tutorial" ∈ labels ∨ "docs" ∈ labels)) (decide ("vintage" ∈ labels))
          (decide ("outreach" ∈ labels ∨ "seo" ∈ labels ∨ "marketing" ∈ labels))).sum)
    ∧ 0 < (calculate_xp event_type event_action labels pr_merged).1 :=
  calc_core_spec _ _ _ _ _ _ _ _ _ _

theorem maybe_step_mono (existing acc : List String) (r : String × Bool) (a : String)
    (ha : a ∈ acc) : a ∈ maybe_step existing acc r := by
  unfold maybe_step
  split
  · exact List.mem_append_left _ ha
  · exact ha

theorem maybe_foldl_mono (existing : List String) (rules : List (String × Bool)) :
    ∀ (acc : List String) (a : String), a ∈ acc →
      a ∈ rules.foldl (maybe_step existing) acc := by
  induction rules with
  | nil => intro acc a ha; simpa using ha
  | cons r rest ih =>
      intro acc a ha
      rw [List.foldl_cons]
      exact ih _ _ (maybe_step_mono existing acc r a ha)

theorem maybe_foldl_true_mem (existing : List String) (rules : List (String × Bool)) :
    ∀ (acc : List String) (n : String), (n, true) ∈ rules →
      n ∈ existing ∨ n ∈ rules.foldl (maybe_step existing) acc := by
  induction rules with
  | nil => intro acc n h; cases h
  | cons r rest ih =>
      intro acc n h
      rw [List.foldl_cons]
      rcases List.mem_cons.mp h with heq | htail
      · by_cases hex : n ∈ existing
        · exact Or.inl hex
        · right
          apply maybe_foldl_mono
          subst heq
          unfold maybe_step
          by_cases hacc : n ∈ acc
          · split
            · exact List.mem_append_left _ hacc
            · exact hacc
          · rw [if_pos ⟨rfl, hex, hacc⟩]
            exact List.mem_append_right _ (List.mem_singleton.mpr rfl)
      · exact ih _ n htail

theorem maybe_foldl_stall (existing : List String) (rules : List (String × Bool))
    (h : ∀ p ∈ rules, p.2 = true → p.1 ∈ existing) :
    ∀ acc : List String, rules.foldl (maybe_step existing) acc = acc := by
  induction rules with
  | nil => intro acc; rfl
  | cons r rest ih =>
      intro acc
      rw [List.foldl_cons]
      have hstep : maybe_step existing acc r = acc := by
        unfold maybe_step
        rw [if_neg]
        rintro ⟨h2, hex, -⟩
        exact hex (h r (List.mem_cons_self _ _) h2)
      rw [hstep]
      exact ih (fun p hp => h p (List.mem_cons_of_mem _ hp)) acc

theorem maybe_foldl_nodup (existing : List String) (rules : List (String × Bool)) :
    ∀ acc : List String, acc.Nodup → (rules.foldl (maybe_step existing) acc).Nodup := by
  induction rules with
  | nil => intro acc h; simpa using h
  | cons r rest ih =>
      intro acc h
      rw [List.foldl_cons]
      apply ih
      unfold maybe_step
      split
      · rename_i hcond
        refine List.Nodup.append h (List.nodup_singleton _) ?_
        intro a ha hb
        rw [List.mem_singleton.mp hb] at ha
        exact hcond.2.2 ha
      · exact h

theorem mem_sunion {x : String} {a b : List String} :
    x ∈ sunion a b ↔ x ∈ a ∨ x ∈ b := by
  simp only [sunion, List.mem_append, List.mem_filter, decide_eq_true_eq]
  by_cases hx : x ∈ a <;> simp [hx]

/-- C5: merging the first unlock list into the existing badges makes a
second identical call return nothing, and one call never repeats a name. -/
theorem determine_new_badges_idempotent (existing : List String) (old_xp new_xp : Int)
    (labels : List String) (actor : String) :
    determine_new_badges
        (sunion existing (determine_new_badges existing old_xp new_xp labels actor))
        old_xp new_xp labels actor = [] ∧
    (determine_new_badges existing old_xp new_xp labels actor).Nodup := by
  constructor
  · apply maybe_foldl_stall
    intro p hp h2
    have hmem : (p.1, true) ∈ badge_rules new_xp labels actor := by
      rw [← h2]
      simpa using hp
    rcases maybe_foldl_true_mem existing (badge_rules new_xp labels actor) [] p.1 hmem with
      hex | hnew
    · exact mem_sunion.mpr (Or.inl hex)
    · exact mem_sunion.mpr (Or.inr hnew)
  · exact maybe_foldl_nodup _ _ [] List.nodup_nil

theorem insertLe_perm {α : Type} (le : α → α → Bool) (x : α) :
    ∀ l : List α, (insertLe le x l).Perm (x :: l) := by
  intro l
  induction l with
  | nil => exact List.Perm.refl _
  | cons y ys ih =>
      unfold insertLe
      split
      · exact (ih.cons y).trans (List.Perm.swap x y ys)
      · exact List.Perm.refl _

theorem sortLe_perm {α : Type} (le : α → α → Bool) :
    ∀ l : List α, (sortLe le l).Perm l := by
  intro l
  induction l with
  | nil => exact List.Perm.refl _
  | cons x xs ih =>
      unfold sortLe
      exact (insertLe_perm le x (sortLe le xs)).trans (ih.cons x)

theorem mem_set_of_lt {α : Type} (a : α) :
    ∀ (l : List α) (i : Nat), i < l.length → a ∈ l.set i a := by
  intro l
  induction l with
  | nil => intro i h; simp at h
  | cons x xs ih =>
      intro i h
      cases i with
      | zero => simp
      | succ j =>
          simp only [List.set]
          exact List.mem_cons_of_mem _ (ih j (by simpa using h))

theorem firstIdxWhere_lt_length {α : Type} (p : α → Bool) :
    ∀ (l : List α) (i : Nat), firstIdxWhere p l = some i → i < l.length := by
  intro l
  induction l with
  | nil => intro i h; simp [firstIdxWhere] at h
  | cons x xs ih =>
      intro i h
      unfold firstIdxWhere at h
      split at h
      · cases h; simp
      · rcases Option.map_eq_some'.mp h with ⟨j, hj, rfl⟩
        have := ih j hj
        simp only [List.length_cons]
        omega

theorem firstIdxWhere_getD {α : Type} (p : α → Bool) (d : α) :
    ∀ (l : List α) (i : Nat), firstIdxWhere p l = some i → p (l.getD i d) = true := by
  intro l
  induction l with
  | nil => intro i h; simp [firstIdxWhere] at h
  | cons x xs ih =>
      intro i h
      unfold firstIdxWhere at h
      split at h
      · cases h
        simpa using ‹p x = true›
      · rcases Option.map_eq_some'.mp h with ⟨j, hj, rfl⟩
        simpa using ih j hj

theorem firstIdxWhere_eq_none_iff {α : Type} (p : α → Bool) :
    ∀ l : List α, firstIdxWhere p l = none ↔ ∀ x ∈ l, p x = false := by
  intro l
  induction l with
  | nil => simp [firstIdxWhere]
  | cons x xs ih =>
      unfold firstIdxWhere
      split
      · rename_i hx
        simp only [reduceCtorEq, false_iff]; push_neg
        exact ⟨x, List.mem_cons_self _ _, by simp [hx]⟩
      · rename_i hx
        simp only [Option.map_eq_none', ih]
        constructor
        · intro h y hy
          rcases List.mem_cons.mp hy with rfl | hy2
          · simpa using hx
          · exact h y hy2
        · intro h y hy
          exact h y (List.mem_cons_of_mem _ hy)

theorem parse_hunter_row_short (cells : List String) (h : cells.length < 7) :
    parse_hunter_row cells = none := by
  unfold parse_hunter_row
  rw [if_pos h]

/-- C9: a table row splitting into fewer than 7 cells yields no record
(no exception), and dropping all such lines does not change the parsed
row collection — the malformed line contributes nothing that could be
re-serialized. -/
theorem short_rows_silently_dropped :
    (∀ cells : List String, cells.length < 7 → parse_hunter_row cells = none) ∧
    (∀ tls : List String, parsed_rows tls =
      parsed_rows (tls.filter (fun l => decide (7 ≤ (parse_table_cells l).length)))) := by
  constructor
  · exact parse_hunter_row_short
  · intro tls
    induction tls with
    | nil => rfl
    | cons l t ih =>
        by_cases h : 7 ≤ (parse_table_cells l).length
        · unfold parsed_rows at ih ⊢
          rw [List.filter_cons, if_pos (by simpa using h)]
          simp only [List.filterMap_cons]
          rw [ih]
        · have hnone : parse_hunter_row (parse_table_cells l) = none :=
            parse_hunter_row_short _ (by omega)
          unfold parsed_rows at ih ⊢
          rw [List.filter_cons, if_neg (by simpa using h)]
          simp only [List.filterMap_cons, hnone, Option.none_bind]
          exact ih

/-- Witness for `short_rows_silently_dropped` on a 3-cell row. -/
theorem short_rows_silently_dropped_witness :
    parse_hunter_row ["1", "@x", "w"] = none ∧
    parsed_rows ["| 1 | @x |"] =
      parsed_rows (["| 1 | @x |"].filter
        (fun l => decide (7 ≤ (parse_table_cells l).length))) :=
  ⟨short_rows_silently_dropped.1 ["1", "@x", "w"] (by decide),
   short_rows_silently_dropped.2 ["| 1 | @x |"]⟩

theorem t_idx_of_lt (md actor : String) :
    t_idx_of md actor < (rows1_of md actor).length := by
  unfold t_idx_of rows1_of
  cases h : target_idx_of md actor with
  | none => simp
  | some i =>
      unfold target_idx_of at h
      have hlt := firstIdxWhere_lt_length _ _ _ h
      simpa using hlt

theorem target_upd_mem_final (stamp md actor : String) (gained : Int) (reason : String)
    (labels : List String) :
    target_upd_of stamp md actor gained reason labels ∈
      final_rows_of stamp md actor gained reason labels := by
  unfold final_rows_of
  refine (sortLe_perm row_le _).mem_iff.mpr ?_
  unfold rows2_of
  exact mem_set_of_lt _ _ _ (t_idx_of_lt md actor)

theorem first_blood_in_unlock (existing : List String) (oldv newv : Int)
    (labels : List String) (actor : String) (h : 0 < newv) :
    "First Blood" ∈ sunion existing (determine_new_badges existing oldv newv labels actor) := by
  have hd : decide (0 < newv) = true := decide_eq_true h
  have hmem : (("First Blood" : String), true) ∈ badge_rules newv labels actor := by
    unfold badge_rules
    rw [← hd]
    exact List.mem_cons_self _ _
  rcases maybe_foldl_true_mem existing (badge_rules newv labels actor) [] "First Blood" hmem
    with hex | hnew
  · exact mem_sunion.mpr (Or.inl hex)
  · exact mem_sunion.mpr (Or.inr hnew)

/-- C10: the award delta is always positive; hence whenever the target
record had non-negative XP before the award its post-update badge set
contains "First Blood" and the updated target is among the serialized
rows; the backfill pass likewise gives "First Blood" to every existing
record with positive XP. -/
theorem first_blood_always :
    (∀ (event_type event_action : String) (labels : List String) (pr_merged : Bool),
        0 < (calculate_xp event_type event_action labels pr_merged).1) ∧
    (∀ (stamp md actor reason : String) (gained : Int) (labels : List String),
        0 ≤ old_xp_of md actor → 0 < gained →
        "First Blood" ∈ (target_upd_of stamp md actor gained reason labels).badges ∧
        target_upd_of stamp md actor gained reason labels ∈
          final_rows_of stamp md actor gained reason labels) ∧
    (∀ row : HunterRow, 0 < row.xp → "First Blood" ∈ (backfill_row row).badges) := by
  refine ⟨?_, ?_, ?_⟩
  · intro et ea labels m
    exact (calc_core_spec _ _ _ _ _ _ _ _ _ _).2
  · intro stamp md actor reason gained labels hold hpos
    constructor
    · show "First Blood" ∈
        sunion (target_of md actor).badges (unlocked_of md actor gained labels)
      unfold unlocked_of
      refine first_blood_in_unlock _ _ _ _ _ ?_
      unfold new_total_of
      omega
    · exact target_upd_mem_final stamp md actor gained reason labels
  · intro row h
    show "First Blood" ∈
      sunion row.badges (determine_new_badges row.badges row.xp row.xp [] row.hunter)
    exact first_blood_in_unlock _ _ _ _ _ h

/-- Witness for `first_blood_always` on a fresh ledger and a concrete row. -/
theorem first_blood_always_witness :
    0 < (calculate_xp "issues" "closed" [] false).1 ∧
    ("First Blood" ∈ (target_upd_of "S" fbDoc "alice" 50 "r" []).badges ∧
      target_upd_of "S" fbDoc "alice" 50 "r" [] ∈
        final_rows_of "S" fbDoc "alice" 50 "r" []) ∧
    "First Blood" ∈
      (backfill_row { hunter := "@b", wallet := "w", xp := 10, level := 1,
                      title := "Starting Hunter", badges := [], last_action := "",
                      notes := "" }).badges :=
  ⟨first_blood_always.1 "issues" "closed" [] false,
   first_blood_always.2.1 "S" fbDoc "alice" "r" 50 [] (by decide) (by decide),
   first_blood_always.2.2 _ (by decide)⟩

set_option maxRecDepth 100000 in
set_option maxHeartbeats 2000000 in
/-- C1 counterexample: after updating `@alice`, the serialized ledger
still contains the `@bob` row with level 9 and title "Master Hunter"
although `get_level_and_title 100` is `(1, "Starting Hunter")` — no
recompute pass runs over non-target rows. -/
theorem level_title_invariant_cex :
    (∃ r ∈ final_rows_of "S" c1Doc "alice" 50 "r" [],
        r.xp = 100 ∧ r.level = 9 ∧ r.title = "Master Hunter") ∧
    get_level_and_title 100 ≠ (9, "Master Hunter") ∧
    (∃ u, update_table_in_md "S" c1Doc "alice" 50 "r" [] = Except.ok u ∧
        (pyFind u.md "| 100 | 9 | Master Hunter |").isSome = true) :=
  ⟨by decide, by decide, ⟨_, rfl, by decide⟩⟩

/-- C1 amended: the `(level, title) = resolve(totalXP)` recomputation is
applied to the target row only; every other serialized row is either a
backfilled parsed row — the backfill changes badges only, so parsed
level/title cells are preserved verbatim — or the freshly created target
placeholder. -/
theorem level_title_target_only (stamp md actor reason : String) (gained : Int)
    (labels : List String) (u : UpdateResult)
    (h : update_table_in_md stamp md actor gained reason labels = Except.ok u) :
    ((target_upd_of stamp md actor gained reason labels).level,
      (target_upd_of stamp md actor gained reason labels).title) =
      get_level_and_title (target_upd_of stamp md actor gained reason labels).xp ∧
    (∀ r ∈ final_rows_of stamp md actor gained reason labels,
      r = target_upd_of stamp md actor gained reason labels ∨
      r ∈ backfilled_of md ∨ r = fresh_row (actor_key actor)) ∧
    (∀ row : HunterRow, (backfill_row row).xp = row.xp ∧
      (backfill_row row).level = row.level ∧ (backfill_row row).title = row.title) := by
  refine ⟨rfl, ?_, fun row => ⟨rfl, rfl, rfl⟩⟩
  intro r hr
  unfold final_rows_of at hr
  have hr2 : r ∈ rows2_of stamp md actor gained reason labels :=
    (sortLe_perm row_le _).mem_iff.mp hr
  unfold rows2_of at hr2
  rcases List.mem_or_eq_of_mem_set hr2 with hr1 | rfl
  · unfold rows1_of at hr1
    cases htgt : target_idx_of md actor with
    | some i => rw [htgt] at hr1; exact Or.inr (Or.inl hr1)
    | none =>
        rw [htgt] at hr1
        rcases List.mem_append.mp hr1 with hb | hf
        · exact Or.inr (Or.inl hb)
        · exact Or.inr (Or.inr (List.mem_singleton.mp hf))
  · exact Or.inl rfl

set_option maxRecDepth 100000 in
set_option maxHeartbeats 2000000 in
/-- Witness for `level_title_target_only` on `c1Doc`. -/
theorem level_title_target_only_witness :
    ((target_upd_of "S" c1Doc "alice" 50 "r" []).level,
      (target_upd_of "S" c1Doc "alice" 50 "r" []).title) =
      get_level_and_title (target_upd_of "S" c1Doc "alice" 50 "r" []).xp ∧
    (∀ r ∈ final_rows_of "S" c1Doc "alice" 50 "r" [],
      r = target_upd_of "S" c1Doc "alice" 50 "r" [] ∨
      r ∈ backfilled_of c1Doc ∨ r = fresh_row (actor_key "alice")) ∧
    (∀ row : HunterRow, (backfill_row row).xp = row.xp ∧
      (backfill_row row).level = row.level ∧ (backfill_row row).title = row.title) :=
  level_title_target_only "S" c1Doc "alice" "r" 50 [] _ rfl

set_option maxRecDepth 100000 in
set_option maxHeartbeats 2000000 in
/-- C6 counterexample: a document lacking the award-log heading does not
fail — the update succeeds and appends the heading itself. -/
theorem missing_award_heading_not_fatal_cex :
    pyFind c6Doc "## Latest Awards" = none ∧
    (∃ u, update_table_in_md "S" c6Doc "alice" 50 "r" [] = Except.ok u ∧
        (pyFind u.md "## Latest Awards").isSome = true) :=
  ⟨by decide, ⟨_, rfl, by decide⟩⟩

theorem update_err_of_no_header (stamp md actor reason : String) (gained : Int)
    (labels : List String) (h : find_header_idx (lines_of md) = none) :
    update_table_in_md stamp md actor gained reason labels =
      Except.error "Leaderboard table header not found" := by
  unfold update_table_in_md
  rw [h]

theorem api_loop_err (stamp today actor : String) (gained : Int) (reason : String)
    (labels : List String) (st : Store) (e : String) (fuel attempt : Nat)
    (h : update_table_in_md stamp (update_frontmatter today (st.fetch attempt)) actor gained
        reason labels = Except.error e) :
    api_loop stamp today actor gained reason labels st (fuel + 1) attempt =
      Except.error e := by
  simp only [api_loop]
  rw [h]

/-- C6 amended: `update_table_in_md` fails exactly when the leaderboard
table header marker is absent (with that fixed error, surfaced by the
retry driver without any retry); a missing award-log heading is not an
error. -/
theorem malformed_ledger_header_iff (stamp md actor reason : String) (gained : Int)
    (labels : List String) :
    ((∃ e, update_table_in_md stamp md actor gained reason labels = Except.error e) ↔
      find_header_idx (lines_of md) = none) ∧
    (find_header_idx (lines_of md) = none →
      update_table_in_md stamp md actor gained reason labels =
        Except.error "Leaderboard table header not found") ∧
    (∀ (today : String) (st : Store),
      find_header_idx (lines_of (update_frontmatter today (st.fetch 1))) = none →
      run_api stamp today actor gained reason labels st =
        Except.error "Leaderboard table header not found") := by
  refine ⟨?_, update_err_of_no_header stamp md actor reason gained labels, ?_⟩
  · constructor
    · rintro ⟨e, he⟩
      unfold update_table_in_md at he
      cases hh : find_header_idx (lines_of md) with
      | none => rfl
      | some k => rw [hh] at he; cases he
    · intro hn
      exact ⟨_, update_err_of_no_header stamp md actor reason gained labels hn⟩
  · intro today st h
    have herr := update_err_of_no_header stamp
      (update_frontmatter today (st.fetch 1)) actor reason gained labels h
    show api_loop stamp today actor gained reason labels st max_attempts 1 = _
    exact api_loop_err stamp today actor gained reason labels st _ 3 1 herr

set_option maxRecDepth 100000 in
/-- Witness for `malformed_ledger_header_iff` on a header-less document. -/
theorem malformed_ledger_header_iff_witness :
    update_table_in_md "S" noHeaderDoc "a" 50 "r" [] =
      Except.error "Leaderboard table header not found" ∧
    run_api "S" "T" "a" 50 "r" [] noHeaderStore =
      Except.error "Leaderboard table header not found" :=
  ⟨(malformed_ledger_header_iff "S" noHeaderDoc "a" "r" 50 []).2.1 (by decide),
   (malformed_ledger_header_iff "S" noHeaderDoc "a" "r" 50 []).2.2 "T" noHeaderStore
     (by decide)⟩

set_option maxRecDepth 100000 in
set_option maxHeartbeats 2000000 in
/-- C7 counterexample: awarding `alice` on a ledger containing `@Alice`
does not update the existing row — it appends a second record whose
handle differs only in case, leaving `@Alice` at its old XP. -/
theorem case_insensitive_lookup_cex :
    (final_rows_of "S" c7Doc "alice" 50 "r" []).countP
        (fun r => decide (pyLower r.hunter = "@alice")) = 2 ∧
    (∃ r ∈ final_rows_of "S" c7Doc "alice" 50 "r" [], r.hunter = "@Alice" ∧ r.xp = 10) ∧
    (∃ r ∈ final_rows_of "S" c7Doc "alice" 50 "r" [], r.hunter = "@alice" ∧ r.xp = 50) := by
  refine ⟨by decide, by decide, by decide⟩

/-- C7 amended: the target lookup uses exact, case-sensitive equality of
the stripped handle against `"@" ++ actor`; when no row matches exactly
(even if one matches up to letter case) a fresh zero-XP record is
appended and receives the award, and when row `i` is the first exact
match it is the one updated. -/
theorem exact_handle_lookup (md actor : String) (gained : Int) :
    (target_idx_of md actor = none ↔
      ∀ r ∈ backfilled_of md, pyStrip r.hunter ≠ actor_key actor) ∧
    (target_idx_of md actor = none →
      rows1_of md actor = backfilled_of md ++ [fresh_row (actor_key actor)] ∧
      old_xp_of md actor = 0 ∧ new_total_of md actor gained = gained) ∧
    (∀ i, target_idx_of md actor = some i →
      rows1_of md actor = backfilled_of md ∧
      pyStrip ((backfilled_of md).getD i (fresh_row (actor_key actor))).hunter
        = actor_key actor ∧
      old_xp_of md actor
        = ((backfilled_of md).getD i (fresh_row (actor_key actor))).xp) := by
  refine ⟨?_, ?_, ?_⟩
  · unfold target_idx_of
    rw [firstIdxWhere_eq_none_iff]
    constructor
    · intro h r hr
      have := h r hr
      simpa using this
    · intro h r hr
      simpa using h r hr
  · intro hn
    have hr1 : rows1_of md actor = backfilled_of md ++ [fresh_row (actor_key actor)] := by
      unfold rows1_of
      rw [hn]
    refine ⟨hr1, ?_, ?_⟩
    · unfold old_xp_of target_of t_idx_of
      rw [hn, hr1]
      simp [Option.getD, fresh_row]
    · unfold new_total_of old_xp_of target_of t_idx_of
      rw [hn, hr1]
      simp [Option.getD, fresh_row]
  · intro i hi
    have hr1 : rows1_of md actor = backfilled_of md := by
      unfold rows1_of
      rw [hi]
    refine ⟨hr1, ?_, ?_⟩
    · unfold target_idx_of at hi
      have := firstIdxWhere_getD _ (fresh_row (actor_key actor)) _ _ hi
      simpa using this
    · unfold old_xp_of target_of t_idx_of
      rw [hi, hr1]
      rfl

set_option maxRecDepth 100000 in
set_option maxHeartbeats 2000000 in
/-- Witness for `exact_handle_lookup` on `c7Doc` for both the miss
(`alice`) and the exact hit (`Alice`). -/
theorem exact_handle_lookup_witness :
    (rows1_of c7Doc "alice" = backfilled_of c7Doc ++ [fresh_row (actor_key "alice")] ∧
      old_xp_of c7Doc "alice" = 0 ∧ new_total_of c7Doc "alice" 50 = 50) ∧
    (rows1_of c7Doc "Alice" = backfilled_of c7Doc ∧
      pyStrip ((backfilled_of c7Doc).getD 0 (fresh_row (actor_key "Alice"))).hunter
        = actor_key "Alice" ∧
      old_xp_of c7Doc "Alice"
        = ((backfilled_of c7Doc).getD 0 (fresh_row (actor_key "Alice"))).xp) :=
  ⟨(exact_handle_lookup c7Doc "alice" 50).2.1 (by decide),
   (exact_handle_lookup c7Doc "Alice" 50).2.2 0 (by decide)⟩

theorem upd_ok_fields (stamp md actor reason : String) (gained : Int)
    (labels : List String) (u : UpdateResult)
    (h : update_table_in_md stamp md actor gained reason labels = Except.ok u) :
    u.new_total = new_total_of md actor gained ∧
    u.level = (get_level_and_title (new_total_of md actor gained)).1 ∧
    u.title = (get_level_and_title (new_total_of md actor gained)).2 ∧
    u.unlocked = unlocked_of md actor gained labels := by
  unfold update_table_in_md at h
  cases hh : find_header_idx (lines_of md) with
  | none => rw [hh] at h; cases h
  | some k =>
      rw [hh] at h
      cases h
      exact ⟨rfl, rfl, rfl, rfl⟩

theorem api_loop_ok (stamp today actor : String) (gained : Int) (reason : String)
    (labels : List String) (st : Store) (u : UpdateResult) (url : String)
    (fuel attempt : Nat)
    (hu : update_table_in_md stamp (update_frontmatter today (st.fetch attempt)) actor gained
        reason labels = Except.ok u)
    (hput : st.put attempt = PutResult.ok url) :
    api_loop stamp today actor gained reason labels st (fuel + 1) attempt =
      Except.ok { actor := actor, awarded_xp := gained, total_xp := u.new_total,
                  level := u.level, title := u.title, result_reason := reason,
                  new_badges := u.unlocked, commit_url := url, attempts := attempt,
                  committed := some u.md } := by
  simp only [api_loop]
  rw [hu, hput]

theorem api_loop_conflict_step (stamp today actor : String) (gained : Int) (reason : String)
    (labels : List String) (st : Store) (u : UpdateResult) (fuel attempt : Nat)
    (hu : update_table_in_md stamp (update_frontmatter today (st.fetch attempt)) actor gained
        reason labels = Except.ok u)
    (hput : st.put attempt = PutResult.conflict)
    (hlt : attempt < max_attempts) :
    api_loop stamp today actor gained reason labels st (fuel + 1) attempt =
      api_loop stamp today actor gained reason labels st fuel (attempt + 1) := by
  simp only [api_loop]
  rw [hu, hput]
  simp [hlt]

theorem api_loop_exhaust (stamp today actor : String) (gained : Int) (reason : String)
    (labels : List String) (st : Store) (u : UpdateResult) (fuel attempt : Nat)
    (hu : update_table_in_md stamp (update_frontmatter today (st.fetch attempt)) actor gained
        reason labels = Except.ok u)
    (hput : st.put attempt = PutResult.conflict)
    (hge : ¬ attempt < max_attempts) :
    api_loop stamp today actor gained reason labels st (fuel + 1) attempt =
      Except.ok { actor := actor, awarded_xp := gained, total_xp := u.new_total,
                  level := u.level, title := u.title,
                  result_reason := reason ++ "; commit_conflict_skipped",
                  new_badges := u.unlocked, commit_url := "", attempts := attempt,
                  committed := none } := by
  simp only [api_loop]
  rw [hu, hput]
  simp [hge]

/-- C2: if the conditional write conflicts on each of the first N-1
attempts and succeeds on attempt N ≤ 4, the loop commits the document
recomputed from the fetch of attempt N, so the award is applied exactly
once: the committed total is the freshly fetched target XP plus one
delta, and the updated target row is among the committed rows. -/
theorem conflict_retry_applies_once (stamp today actor reason url : String) (gained : Int)
    (labels : List String) (st : Store) (N : Nat)
    (hN1 : 1 ≤ N) (hN4 : N ≤ max_attempts)
    (hconf : ∀ t, 1 ≤ t → t < N → st.put t = PutResult.conflict)
    (hok : st.put N = PutResult.ok url)
    (hupd : ∀ t, 1 ≤ t → t ≤ N → ∃ u,
      update_table_in_md stamp (update_frontmatter today (st.fetch t)) actor gained reason
        labels = Except.ok u) :
    ∃ u, update_table_in_md stamp (update_frontmatter today (st.fetch N)) actor gained
        reason labels = Except.ok u ∧
      run_api stamp today actor gained reason labels st = Except.ok
        { actor := actor, awarded_xp := gained, total_xp := u.new_total, level := u.level,
          title := u.title, result_reason := reason, new_badges := u.unlocked,
          commit_url := url, attempts := N, committed := some u.md } ∧
      u.new_total = old_xp_of (update_frontmatter today (st.fetch N)) actor + gained ∧
      (target_upd_of stamp (update_frontmatter today (st.fetch N)) actor gained reason
          labels).xp = u.new_total ∧
      target_upd_of stamp (update_frontmatter today (st.fetch N)) actor gained reason labels
        ∈ final_rows_of stamp (update_frontmatter today (st.fetch N)) actor gained reason
            labels := by
  have hN4' : N ≤ 4 := hN4
  interval_cases N
  · obtain ⟨u, hu⟩ := hupd 1 (by omega) (by omega)
    refine ⟨u, hu, ?_, ?_, ?_, target_upd_mem_final _ _ _ _ _ _⟩
    · exact api_loop_ok stamp today actor gained reason labels st u url 3 1 hu hok
    · exact (upd_ok_fields stamp _ actor reason gained labels u hu).1
    · exact ((upd_ok_fields stamp _ actor reason gained labels u hu).1).symm
  · obtain ⟨u1, hu1⟩ := hupd 1 (by omega) (by omega)
    obtain ⟨u, hu⟩ := hupd 2 (by omega) (by omega)
    refine ⟨u, hu, ?_, ?_, ?_, target_upd_mem_final _ _ _ _ _ _⟩
    · exact (api_loop_conflict_step stamp today actor gained reason labels st u1 3 1 hu1
        (hconf 1 (by omega) (by omega)) (by decide)).trans
        (api_loop_ok stamp today actor gained reason labels st u url 2 2 hu hok)
    · exact (upd_ok_fields stamp _ actor reason gained labels u hu).1
    · exact ((upd_ok_fields stamp _ actor reason gained labels u hu).1).symm
  · obtain ⟨u1, hu1⟩ := hupd 1 (by omega) (by omega)
    obtain ⟨u2, hu2⟩ := hupd 2 (by omega) (by omega)
    obtain ⟨u, hu⟩ := hupd 3 (by omega) (by omega)
    refine ⟨u, hu, ?_, ?_, ?_, target_upd_mem_final _ _ _ _ _ _⟩
    · exact ((api_loop_conflict_step stamp today actor gained reason labels st u1 3 1 hu1
        (hconf 1 (by omega) (by omega)) (by decide)).trans
        (api_loop_conflict_step stamp today actor gained reason labels st u2 2 2 hu2
          (hconf 2 (by omega) (by omega)) (by decide))).trans
        (api_loop_ok stamp today actor gained reason labels st u url 1 3 hu hok)
    · exact (upd_ok_fields stamp _ actor reason gained labels u hu).1
    · exact ((upd_ok_fields stamp _ actor reason gained labels u hu).1).symm
  · obtain ⟨u1, hu1⟩ := hupd 1 (by omega) (by omega)
    obtain ⟨u2, hu2⟩ := hupd 2 (by omega) (by omega)
    obtain ⟨u3, hu3⟩ := hupd 3 (by omega) (by omega)
    obtain ⟨u, hu⟩ := hupd 4 (by omega) (by omega)
    refine ⟨u, hu, ?_, ?_, ?_, target_upd_mem_final _ _ _ _ _ _⟩
    · exact (((api_loop_conflict_step stamp today actor gained reason labels st u1 3 1 hu1
        (hconf 1 (by omega) (by omega)) (by decide)).trans
        (api_loop_conflict_step stamp today actor gained reason labels st u2 2 2 hu2
          (hconf 2 (by omega) (by omega)) (by decide))).trans
        (api_loop_conflict_step stamp today actor gained reason labels st u3 1 3 hu3
          (hconf 3 (by omega) (by omega)) (by decide))).trans
        (api_loop_ok stamp today actor gained reason labels st u url 0 4 hu hok)
    · exact (upd_ok_fields stamp _ actor reason gained labels u hu).1
    · exact ((upd_ok_fields stamp _ actor reason gained labels u hu).1).symm

/-- C3: when every conditional write conflicts, the loop stops after
exactly 4 attempts with a non-fatal result whose reason carries the
`"; commit_conflict_skipped"` marker and whose commit reference is empty
(nothing was committed). -/
theorem conflict_exhaust_degraded (stamp today actor reason : String) (gained : Int)
    (labels : List String) (st : Store)
    (hconf : ∀ t, 1 ≤ t → t ≤ max_attempts → st.put t = PutResult.conflict)
    (hupd : ∀ t, 1 ≤ t → t ≤ max_attempts → ∃ u,
      update_table_in_md stamp (update_frontmatter today (st.fetch t)) actor gained reason
        labels = Except.ok u) :
    ∃ u, update_table_in_md stamp (update_frontmatter today (st.fetch 4)) actor gained
        reason labels = Except.ok u ∧
      run_api stamp today actor gained reason labels st = Except.ok
        { actor := actor, awarded_xp := gained, total_xp := u.new_total, level := u.level,
          title := u.title, result_reason := reason ++ "; commit_conflict_skipped",
          new_badges := u.unlocked, commit_url := "", attempts := 4,
          committed := none } := by
  obtain ⟨u1, hu1⟩ := hupd 1 (by omega) (by decide)
  obtain ⟨u2, hu2⟩ := hupd 2 (by omega) (by decide)
  obtain ⟨u3, hu3⟩ := hupd 3 (by omega) (by decide)
  obtain ⟨u, hu⟩ := hupd 4 (by omega) (by decide)
  refine ⟨u, hu, ?_⟩
  exact (((api_loop_conflict_step stamp today actor gained reason labels st u1 3 1 hu1
      (hconf 1 (by omega) (by decide)) (by decide)).trans
      (api_loop_conflict_step stamp today actor gained reason labels st u2 2 2 hu2
        (hconf 2 (by omega) (by decide)) (by decide))).trans
      (api_loop_conflict_step stamp today actor gained reason labels st u3 1 3 hu3
        (hconf 3 (by omega) (by decide)) (by decide))).trans
      (api_loop_exhaust stamp today actor gained reason labels st u 0 4 hu
        (hconf 4 (by omega) (by decide)) (by decide))

set_option maxRecDepth 100000 in
/-- Witness for `conflict_retry_applies_once` with N = 2 on `c2Store`. -/
theorem conflict_retry_applies_once_witness :
    ∃ u, update_table_in_md "S" (update_frontmatter "T" (c2Store.fetch 2)) "bob" 50 "r" []
        = Except.ok u ∧
      run_api "S" "T" "bob" 50 "r" [] c2Store = Except.ok
        { actor := "bob", awarded_xp := 50, total_xp := u.new_total, level := u.level,
          title := u.title, result_reason := "r", new_badges := u.unlocked,
          commit_url := "https://commit/1", attempts := 2, committed := some u.md } ∧
      u.new_total = old_xp_of (update_frontmatter "T" (c2Store.fetch 2)) "bob" + 50 ∧
      (target_upd_of "S" (update_frontmatter "T" (c2Store.fetch 2)) "bob" 50 "r" []).xp
        = u.new_total ∧
      target_upd_of "S" (update_frontmatter "T" (c2Store.fetch 2)) "bob" 50 "r" [] ∈
        final_rows_of "S" (update_frontmatter "T" (c2Store.fetch 2)) "bob" 50 "r" [] :=
  conflict_retry_applies_once "S" "T" "bob" "r" "https://commit/1" 50 [] c2Store 2
    (by decide) (by decide)
    (by intro t h1 h2; interval_cases t; rfl)
    rfl
    (by intro t h1 h2; exact ⟨_, rfl⟩)

set_option maxRecDepth 100000 in
/-- Witness for `conflict_exhaust_degraded` on `c3Store`. -/
theorem conflict_exhaust_degraded_witness :
    ∃ u, update_table_in_md "S" (update_frontmatter "T" (c3Store.fetch 4)) "bob" 50 "r" []
        = Except.ok u ∧
      run_api "S" "T" "bob" 50 "r" [] c3Store = Except.ok
        { actor := "bob", awarded_xp := 50, total_xp := u.new_total, level := u.level,
          title := u.title, result_reason := "r" ++ "; commit_conflict_skipped",
          new_badges := u.unlocked, commit_url := "", attempts := 4,
          committed := none } :=
  conflict_exhaust_degraded "S" "T" "bob" "r" 50 [] c3Store
    (fun t h1 h2 => rfl)
    (by intro t h1 h2; exact ⟨_, rfl⟩)
